import Mathlib

/-!
Verification development for the invoxv2 invoice-signing service.

The definitions below are a shallow embedding of the TypeScript source:
  * invoice creation and totals: app/api/invoices/route.ts (POST)
  * the sign flow: app/api/invoices/[id]/sign/route.ts (POST, verify branch)
  * the WebAuthn challenge store: lib/webauthn.ts
  * the artifact renderer: utils/pdf.ts (generateInvoicePDFWithGST)
Monetary arithmetic (JavaScript numbers in the source) is embedded as exact
rationals.  Database collections are embedded as association lists, and each
persisting call (save / findByIdAndUpdate) is one atomic state transformer.
-/

namespace Invox

/-- Invoice status enum of models/Invoice.ts: 'draft' | 'signed' | 'cancelled'. -/
inductive InvStatus
  | draft
  | signed
  | cancelled
deriving DecidableEq, Repr

/-- Tax type enum: 'IGST' | 'CGST_SGST'. -/
inductive TaxType
  | IGST
  | CGST_SGST
deriving DecidableEq, Repr

/-- A line item as validated by lineItemSchema in app/api/invoices/route.ts.
The total field is client supplied (z.number()), not derived. -/
structure LineItem where
  description : String
  hsnCode : String
  quantity : ℚ
  rate : ℚ
  total : ℚ
deriving DecidableEq, Repr

/-- The stored invoice document (models/Invoice.ts).  Fields that the sign
route reads through JavaScript null coalescing (invoice.igst ?? 0 etc.) are
embedded as Option. -/
structure Invoice where
  invoiceNumber : String
  clientName : String
  clientEmail : String
  clientAddress : String
  clientGSTNumber : Option String
  lineItems : List LineItem
  subtotal : ℚ
  taxType : TaxType
  igst : Option ℚ
  cgst : Option ℚ
  sgst : Option ℚ
  totalTax : Option ℚ
  discount : Option ℚ
  grandTotal : ℚ
  status : InvStatus
  signedBy : Option String
  signatureId : Option String
  pdfUrl : Option String
deriving DecidableEq, Repr

/-- The tax breakdown computed in app/api/invoices/route.ts lines 55-64. -/
structure TaxBreakdown where
  igst : ℚ
  cgst : ℚ
  sgst : ℚ
  totalTax : ℚ
deriving DecidableEq, Repr

/-- Tax computation of app/api/invoices/route.ts lines 55-64 (the same
arithmetic is repeated in the sign route, app/api/invoices/[id]/sign/route.ts):
IGST mode applies 18 percent to the subtotal, CGST_SGST mode applies two
independent 9 percent components. -/
def computeTax (subtotal : ℚ) : TaxType → TaxBreakdown
  | .IGST =>
      { igst := subtotal * (18 / 100)
        cgst := 0
        sgst := 0
        totalTax := subtotal * (18 / 100) }
  | .CGST_SGST =>
      { igst := 0
        cgst := subtotal * (9 / 100)
        sgst := subtotal * (9 / 100)
        totalTax := subtotal * (9 / 100) + subtotal * (9 / 100) }

/-- Invoice creation, app/api/invoices/route.ts POST lines 51-87:
subtotal = lineItems.reduce((sum, item) => sum + item.total, 0) — the client
supplied total field of each item is summed as is; discount defaults to 0;
grandTotal = subtotal + totalTax - discount, stored without clamping. -/
def createInvoice (invoiceNumber clientName clientEmail clientAddress : String)
    (clientGSTNumber : Option String) (items : List LineItem) (t : TaxType)
    (discountArg : Option ℚ) : Invoice :=
  let subtotal := (items.map (fun it => it.total)).sum
  let tax := computeTax subtotal t
  let discount := discountArg.getD 0
  let grandTotal := subtotal + tax.totalTax - discount
  { invoiceNumber := invoiceNumber
    clientName := clientName
    clientEmail := clientEmail
    clientAddress := clientAddress
    clientGSTNumber := clientGSTNumber
    lineItems := items
    subtotal := subtotal
    taxType := t
    igst := some tax.igst
    cgst := some tax.cgst
    sgst := some tax.sgst
    totalTax := some tax.totalTax
    discount := some discount
    grandTotal := grandTotal
    status := .draft
    signedBy := none
    signatureId := none
    pdfUrl := none }

/-- The defensive recomputation block of the sign route,
app/api/invoices/[id]/sign/route.ts lines 553-591: the subtotal is re-summed
from the stored line item totals, the tax components are recomputed only when
the stored totalTax is missing or zero (if (!totalTax) ...), and
grandTotal = subtotal + totalTax - discount is overwritten unconditionally.
No comparison against the stored totals is made and no error is ever raised
(the surrounding try/catch swallows any failure). -/
def signRecalc (inv : Invoice) : Invoice :=
  let subtotal := (inv.lineItems.map (fun it => it.total)).sum
  let taxType := inv.taxType
  let totalTax0 := inv.totalTax.getD 0
  let tax : TaxBreakdown :=
    if totalTax0 = 0 then computeTax subtotal taxType
    else
      { igst := inv.igst.getD 0
        cgst := inv.cgst.getD 0
        sgst := inv.sgst.getD 0
        totalTax := totalTax0 }
  let discount := inv.discount.getD 0
  { inv with
    subtotal := subtotal
    taxType := taxType
    igst := some tax.igst
    cgst := some tax.cgst
    sgst := some tax.sgst
    totalTax := some tax.totalTax
    discount := some discount
    grandTotal := subtotal + tax.totalTax - discount }

/-! ## Challenge store and WebAuthn verification (lib/webauthn.ts) -/

/-- An entry of the in-memory challenge store of lib/webauthn.ts:
interface StoredChallenge { challenge: string; expiresAt: number }. -/
structure StoredChallenge where
  challenge : String
  expiresAt : ℤ
deriving DecidableEq, Repr

/-- The Map of lib/webauthn.ts, keyed by userId, embedded as an
association list. -/
abbrev ChallengeStore := List (String × StoredChallenge)

/-- Map.get. -/
def storeGet (s : ChallengeStore) (k : String) : Option StoredChallenge :=
  (s.find? (fun p => p.1 == k)).map (fun p => p.2)

/-- Map.set (replaces any entry for the key). -/
def storeSet (s : ChallengeStore) (k : String) (v : StoredChallenge) : ChallengeStore :=
  (k, v) :: s.filter (fun p => p.1 != k)

/-- Map.delete. -/
def storeDelete (s : ChallengeStore) (k : String) : ChallengeStore :=
  s.filter (fun p => p.1 != k)

/-- The result of the external verifyAuthenticationResponse call: the verified
flag and authenticationInfo.newCounter. -/
structure VerifiedAuthenticationResponse where
  verified : Bool
  newCounter : ℕ
deriving DecidableEq, Repr

/-- Modelled from the spec: the signature-counter check performed inside the
external library call verifyAuthenticationResponse (the @simplewebauthn/server
dependency, whose source is not part of this repository).  Spec section 4.3:
candidateCounter must be strictly greater than credential.counter unless both
are zero.  The library reports a bad counter as a failed verification of the
attempt (it throws, which the route maps to the same failure response as
verified = false, with identical state effects). -/
def replayCheckOk (storedCounter candidate : ℕ) : Bool :=
  decide (storedCounter < candidate) || decide (storedCounter = 0 ∧ candidate = 0)

/-- verifyAuthentication of lib/webauthn.ts lines 96-126.  The store is looked
up by userId; a missing or expired entry throws (embedded as Except.error)
before any cryptographic work; otherwise the external library verifies the
assertion — its cryptographic part is abstracted by the cryptoOk argument and
its counter check is replayCheckOk — and the challenge entry is deleted only
when verification.verified is true. -/
def verifyAuthentication (store : ChallengeStore) (userId : String) (now : ℤ)
    (cryptoOk : Bool) (storedCounter candidate : ℕ) :
    Except String VerifiedAuthenticationResponse × ChallengeStore :=
  match storeGet store userId with
  | none => (.error "Challenge expired or not found", store)
  | some stored =>
    if stored.expiresAt < now then
      (.error "Challenge expired or not found", store)
    else
      let verification : VerifiedAuthenticationResponse :=
        { verified := cryptoOk && replayCheckOk storedCounter candidate
          newCounter := candidate }
      if verification.verified then (.ok verification, storeDelete store userId)
      else (.ok verification, store)

/-! ## The verify-and-sign flow (app/api/invoices/[id]/sign/route.ts) -/

/-- The Signature record (models/Signature.ts) as used by the sign route. -/
structure SignatureRec where
  userId : String
  invoiceId : String
  verified : Bool
deriving DecidableEq, Repr

/-- Association-list lookup, embedding Model.findById. -/
def alistGet {α : Type} (l : List (String × α)) (k : String) : Option α :=
  (l.find? (fun p => p.1 == k)).map (fun p => p.2)

/-- Association-list update, embedding document.save() / findByIdAndUpdate. -/
def alistSet {α : Type} (l : List (String × α)) (k : String) (v : α) :
    List (String × α) :=
  (k, v) :: l.filter (fun p => p.1 != k)

/-- The persistent state touched by the sign route: the invoice and signature
collections, the single credential counter of the signing user
(userDoc.webAuthnCredential.counter), the challenge store, and the audit log
(createLog action strings). -/
structure SignState where
  invoices : List (String × Invoice)
  signatures : List (String × SignatureRec)
  counter : ℕ
  challenges : ChallengeStore
  logs : List String
deriving DecidableEq, Repr

/-- One step:verify request to the sign route.  cryptoOk abstracts the
cryptographic outcome of the external assertion check, candidateCounter is the
counter reported by the authenticator, pdfOk tells whether PDF generation and
saving succeed, and now is the clock value used for challenge expiry. -/
structure VerifyRequest where
  userId : String
  invoiceId : String
  signatureId : String
  now : ℤ
  cryptoOk : Bool
  candidateCounter : ℕ
  pdfOk : Bool
deriving DecidableEq, Repr

/-- The distinct responses of the verify branch of the sign route. -/
inductive SignOutcome
  | invoiceNotFound          -- 404 Invoice not found
  | alreadySigned            -- 400 Invoice is already signed
  | cancelledInvoice         -- 400 Cannot sign a cancelled invoice
  | signatureNotFound        -- 404 Signature record not found
  | signatureWrongUser       -- 403 Signature does not belong to current user
  | signatureWrongInvoice    -- 400 Signature does not match invoice
  | signatureAlreadyVerified -- 400 Signature already verified
  | verificationFailed       -- 401 Signature verification failed
  | success
deriving DecidableEq, Repr

/-- Filename sanitizing of savePDF (utils/pdf.ts): every character outside
[a-zA-Z0-9-] becomes an underscore (invoiceNumber.replace with that character
class).  Written over the character list of the string. -/
def sanitizeFilename (s : String) : String :=
  String.mk (s.data.map (fun c => if c.isAlphanum || c == '-' then c else '_'))

/-- The URL returned by savePDF (utils/pdf.ts). -/
def savePdfUrl (invoiceNumber : String) : String :=
  "/pdfs/" ++ sanitizeFilename invoiceNumber ++ ".pdf"

/-- The persistence actions of the successful verify branch, in source order
(app/api/invoices/[id]/sign/route.ts lines 484-603):
1. User.findByIdAndUpdate with the new credential counter (line 485);
2. signature.verified = true; signature.save() (lines 490-492);
3. PDF generation inside try/catch — on success logs PDF_GENERATED, on
   failure logs PDF_GENERATION_FAILED and continues (lines 516-550);
4. invoice.save() carrying status signed, signer, signature pointer, the
   recomputed totals, and the pdf URL when one was produced (lines 494-498,
   517-527, 553-593);
5. the INVOICE_SIGNED audit log (lines 596-603).
Each list element is one atomic write; the document fields carried by one
write commit together, but distinct writes are separate round trips. -/
def signPersistSteps (rq : VerifyRequest) (v : VerifiedAuthenticationResponse)
    (inv : Invoice) : List (SignState → SignState) :=
  [ fun st => { st with counter := v.newCounter }
  , fun st =>
      let sigs := alistSet st.signatures rq.signatureId
        (SignatureRec.mk rq.userId rq.invoiceId true)
      { st with signatures := sigs }
  , fun st =>
      let entry := if rq.pdfOk then "PDF_GENERATED" else "PDF_GENERATION_FAILED"
      { st with logs := entry :: st.logs }
  , fun st =>
      let url := if rq.pdfOk then some (savePdfUrl inv.invoiceNumber) else inv.pdfUrl
      let inv2 := signRecalc
        { inv with
          status := .signed
          signedBy := some rq.userId
          signatureId := some rq.signatureId
          pdfUrl := url }
      { st with invoices := alistSet st.invoices rq.invoiceId inv2 }
  , fun st => { st with logs := "INVOICE_SIGNED" :: st.logs } ]

/-- Fold a list of state transformers. -/
def runSteps (st : SignState) (steps : List (SignState → SignState)) : SignState :=
  steps.foldl (fun s f => f s) st

/-- The verify branch of the sign route, parametrized by the number k of
persistence actions that complete: verifyStepWith 5 is the full call, while a
smaller k models a crash or failure after the first k writes.  The guard
sequence is the source order: invoice lookup and status checks (lines 266-289),
signature lookup and ownership checks (lines 380-410), then WebAuthn
verification (lines 431-482), then the persistence actions. -/
def verifyStepWith (k : ℕ) (st : SignState) (rq : VerifyRequest) :
    SignOutcome × SignState :=
  match alistGet st.invoices rq.invoiceId with
  | none => (.invoiceNotFound, st)
  | some inv =>
    if inv.status = .signed then (.alreadySigned, st)
    else if inv.status = .cancelled then (.cancelledInvoice, st)
    else
      match alistGet st.signatures rq.signatureId with
      | none => (.signatureNotFound, st)
      | some sg =>
        if sg.userId ≠ rq.userId then (.signatureWrongUser, st)
        else if sg.invoiceId ≠ rq.invoiceId then (.signatureWrongInvoice, st)
        else if sg.verified then (.signatureAlreadyVerified, st)
        else
          match verifyAuthentication st.challenges rq.userId rq.now rq.cryptoOk
              st.counter rq.candidateCounter with
          | (.error _, store2) =>
              (.verificationFailed,
               { st with
                 challenges := store2
                 logs := "INVOICE_SIGN_FAILED" :: st.logs })
          | (.ok v, store2) =>
            if v.verified = false then
              (.verificationFailed,
               { st with
                 challenges := store2
                 logs := "INVOICE_SIGN_FAILED" :: st.logs })
            else
              (.success,
               runSteps { st with challenges := store2 }
                 ((signPersistSteps rq v inv).take k))

/-- The complete verify call: all five persistence actions run. -/
def verifyStep (st : SignState) (rq : VerifyRequest) : SignOutcome × SignState :=
  verifyStepWith 5 st rq

/-! ## Interleaving model of two concurrent verify-and-sign calls

The sign route transitions an invoice with `const invoice = await
Invoice.findById(id)` followed by a status guard (lines 266-289), and much
later `invoice.status = 'signed'; ...; await invoice.save()` (lines 495, 593).
Read and write are separate round trips to the store, so two requests on the
same invoice interleave.  Each request is modelled by its two atomic database
actions; a schedule is a list of actions. -/

/-- Progress of one sign request: before the read, after a successful
read-and-guard, finished successfully, or failed the status guard. -/
inductive ReqPhase
  | start
  | ready
  | succeeded
  | failedAlreadySigned
deriving DecidableEq, Repr

/-- Shared invoice status plus the two request phases. -/
structure RaceState where
  status : InvStatus
  p1 : ReqPhase
  p2 : ReqPhase
deriving DecidableEq, Repr

/-- The four atomic actions of the two requests. -/
inductive RaceAction
  | read1
  | write1
  | read2
  | write2
deriving DecidableEq, Repr

/-- One atomic action.  read = Invoice.findById plus the status guard (the
request fails with AlreadySigned when the snapshot is not draft); write =
invoice.save() with status signed.  Actions of a request that is not at the
corresponding phase do nothing. -/
def raceStep (s : RaceState) : RaceAction → RaceState
  | .read1 =>
    if s.p1 = .start then
      if s.status = .draft then { s with p1 := .ready }
      else { s with p1 := .failedAlreadySigned }
    else s
  | .write1 =>
    if s.p1 = .ready then { s with status := .signed, p1 := .succeeded } else s
  | .read2 =>
    if s.p2 = .start then
      if s.status = .draft then { s with p2 := .ready }
      else { s with p2 := .failedAlreadySigned }
    else s
  | .write2 =>
    if s.p2 = .ready then { s with status := .signed, p2 := .succeeded } else s

/-- Run a schedule. -/
def raceRun (s : RaceState) (acts : List RaceAction) : RaceState :=
  acts.foldl raceStep s

/-- Both requests target the same draft invoice. -/
def raceInit : RaceState :=
  { status := .draft, p1 := .start, p2 := .start }

/-- How many of the two requests reported success. -/
def successCount (s : RaceState) : ℕ :=
  (if s.p1 = .succeeded then 1 else 0) + (if s.p2 = .succeeded then 1 else 0)

/-! ## Artifact renderer (utils/pdf.ts, generateInvoicePDFWithGST)

The renderer is embedded as the ordered trace of values drawn onto the page:
every page.drawText call contributes one element, string content verbatim and
numeric content as the underlying rational (locale formatting such as
toLocaleString and toFixed is abstracted into the num constructor).  Geometry,
colors, fonts, rectangles and the pdf-lib container format are not part of the
trace; font metrics, which drive wrapText, enter through the widthOf argument.
The optional signatureImageUrl argument of the source (unused by the sign
flow, and requiring a network fetch when present) is omitted. -/

/-- Company settings consumed by the renderer (interface CompanySettings). -/
structure CompanySettings where
  companyName : String
  companyAddress : String
  companyEmail : String
  companyPhone : String
  companyGSTIN : String
  termsText : Option String
deriving DecidableEq, Repr

/-- One drawn value. -/
inductive Draw
  | txt (s : String)
  | num (q : ℚ)
deriving DecidableEq, Repr

/-- Uppercasing, lexeme take, trim and single-character split of the
JavaScript string methods the renderer uses, written over the character list
of the string. -/
def strUpper (s : String) : String := String.mk (s.data.map Char.toUpper)

def strTake (s : String) (n : ℕ) : String := String.mk (s.data.take n)

def strTrim (s : String) : String :=
  String.mk (((s.data.dropWhile Char.isWhitespace).reverse.dropWhile
    Char.isWhitespace).reverse)

/-- text.split(sep) for a one-character separator. -/
def jsSplit (sep : Char) (s : String) : List String :=
  let f := fun (c : Char) (acc : List (List Char) × List Char) =>
    if c = sep then (acc.2 :: acc.1, []) else (acc.1, c :: acc.2)
  let r := s.data.foldr f ([], [])
  (r.2 :: r.1).map String.mk

/-- wrapText of utils/pdf.ts lines 622-644: greedy word wrap over
text.split(' '), where widthOf stands for font.widthOfTextAtSize at size 9. -/
def wrapText (text : String) (maxWidth : ℕ) (widthOf : String → ℕ) : List String :=
  let step := fun (acc : List String × String) (word : String) =>
    let lines := acc.1
    let currentLine := acc.2
    let testLine := if currentLine = "" then word else currentLine ++ " " ++ word
    if widthOf testLine > maxWidth ∧ currentLine ≠ "" then (lines ++ [currentLine], word)
    else (lines, testLine)
  let folded := (jsSplit ' ' text).foldl step ([], "")
  if folded.2 ≠ "" then folded.1 ++ [folded.2] else folded.1

/-- JavaScript truncation toward zero for rationals. -/
def jsTrunc (q : ℚ) : ℤ :=
  if q < 0 then -(⌊-q⌋) else ⌊q⌋

/-- JavaScript remainder (sign follows the dividend). -/
def jsMod (a b : ℚ) : ℚ :=
  a - b * (jsTrunc (a / b) : ℚ)

def wordsOnes : List String :=
  ["", "One", "Two", "Three", "Four", "Five", "Six", "Seven", "Eight", "Nine"]

def wordsTens : List String :=
  ["", "", "Twenty", "Thirty", "Forty", "Fifty", "Sixty", "Seventy", "Eighty", "Ninety"]

def wordsTeens : List String :=
  ["Ten", "Eleven", "Twelve", "Thirteen", "Fourteen", "Fifteen", "Sixteen",
   "Seventeen", "Eighteen", "Nineteen"]

/-- JavaScript array indexing: out-of-range positions read as undefined. -/
def getWord (l : List String) (i : ℤ) : String :=
  if i < 0 then "undefined" else l.getD i.toNat "undefined"

/-- numberToWords of utils/pdf.ts lines 647-677 (Indian numbering). -/
def numberToWords (num : ℚ) : String :=
  if num = 0 then "Zero"
  else
    let crore := ⌊num / 10000000⌋
    let lakh := ⌊jsMod num 10000000 / 100000⌋
    let thousand := ⌊jsMod num 100000 / 1000⌋
    let hundred := ⌊jsMod num 1000 / 100⌋
    let remainder := ⌊jsMod num 100⌋
    let w1 := "Indian Rupees "
    let w2 := if crore > 0 then w1 ++ getWord wordsOnes crore ++ " Crore " else w1
    let w3 := if lakh > 0 then w2 ++ getWord wordsOnes lakh ++ " Lakh " else w2
    let w4 := if thousand > 0 then w3 ++ getWord wordsOnes thousand ++ " Thousand " else w3
    let w5 := if hundred > 0 then w4 ++ getWord wordsOnes hundred ++ " Hundred " else w4
    let w6 :=
      if remainder ≥ 20 then
        let t := w5 ++ getWord wordsTens (remainder / 10) ++ " "
        if remainder % 10 > 0 then t ++ getWord wordsOnes (remainder % 10) ++ " " else t
      else if remainder ≥ 10 then w5 ++ getWord wordsTeens (remainder - 10) ++ " "
      else if remainder > 0 then w5 ++ getWord wordsOnes remainder ++ " "
      else w5
    strTrim w6 ++ " Only"

/-- The default terms block of utils/pdf.ts lines 512-515. -/
def defaultTerms : String :=
  "All payments are made subject to realization of the same\n" ++
  "Payment should be done within 07 days from generated invoice date\n" ++
  "Cheque return charges should be INR500"

/-- The drawn trace of one line item row (utils/pdf.ts lines 251-305). -/
def lineItemTrace (item : LineItem) : List Draw :=
  [ Draw.txt (strTake item.description 35)
  , Draw.num item.quantity
  , Draw.txt "INR"
  , Draw.num item.rate
  , Draw.txt item.hsnCode
  , Draw.txt "INR"
  , Draw.num item.total ]

/-- generateInvoicePDFWithGST of utils/pdf.ts lines 45-619, as the ordered
trace of drawn values.  The signedBy and signedAt parameters are accepted —
the source declares them — but no drawing command of the source reads either,
so they cannot appear in the trace. -/
def generateInvoicePDFWithGST (invoice : Invoice) (settings : CompanySettings)
    (signedBy : String) (signedAt : ℤ) (widthOf : String → ℕ) : List Draw :=
  [ Draw.txt "KIPL"
  , Draw.txt "FROM"
  , Draw.txt (strUpper settings.companyName) ] ++
  (wrapText settings.companyAddress 168 widthOf).map Draw.txt ++
  [ Draw.txt ("PH: " ++ settings.companyPhone)
  , Draw.txt ("GSTIN: " ++ settings.companyGSTIN)
  , Draw.txt "TAX INVOICE"
  , Draw.txt "BILL TO"
  , Draw.txt (strUpper invoice.clientName) ] ++
  (wrapText invoice.clientAddress 152 widthOf).map Draw.txt ++
  (match invoice.clientGSTNumber with
   | some g => if g ≠ "" then [Draw.txt ("GSTIN: " ++ g)] else []
   | none => []) ++
  [ Draw.txt "DESCRIPTION"
  , Draw.txt "QUANTITY"
  , Draw.txt "RATE"
  , Draw.txt "HSN/SAC"
  , Draw.txt "TOTAL" ] ++
  invoice.lineItems.flatMap lineItemTrace ++
  [ Draw.txt "Amount Chargeable (in words)"
  , Draw.txt (numberToWords invoice.grandTotal)
  , Draw.txt "SUBTOTAL"
  , Draw.txt "INR"
  , Draw.num invoice.subtotal ] ++
  (match invoice.taxType with
   | .IGST =>
     [ Draw.txt "IGST (18%)", Draw.txt "INR", Draw.num (invoice.igst.getD 0) ]
   | .CGST_SGST =>
     [ Draw.txt "CGST (9%)", Draw.txt "INR", Draw.num (invoice.cgst.getD 0)
     , Draw.txt "SGST (9%)", Draw.txt "INR", Draw.num (invoice.sgst.getD 0) ]) ++
  [ Draw.txt "TOTAL AMOUNT"
  , Draw.txt "INR"
  , Draw.num invoice.grandTotal
  , Draw.txt "Payment Information"
  , Draw.txt "Bank Name"
  , Draw.txt ":"
  , Draw.txt "Account Name"
  , Draw.txt ":"
  , Draw.txt settings.companyName
  , Draw.txt "A/c No."
  , Draw.txt ":"
  , Draw.txt "Branch & IFS Code"
  , Draw.txt ":"
  , Draw.txt "Terms and Conditions:" ] ++
  (jsSplit (Char.ofNat 10) (match settings.termsText with
    | some t => if t ≠ "" then t else defaultTerms
    | none => defaultTerms)).map Draw.txt ++
  [ Draw.txt "Authorised Signatory"
  , Draw.txt "Thankyou for choosing our Business"
  , Draw.txt settings.companyEmail ]

/-! ## Concrete fixtures used by the closed theorems below -/

/-- A line item whose client-sent total agrees with quantity times rate. -/
def itemStd : LineItem :=
  { description := "Widget", hsnCode := "8471", quantity := 2, rate := 100, total := 200 }

/-- A line item whose client-sent total (999) disagrees with quantity times
rate (200); the creation schema accepts it since total is an arbitrary
z.number(). -/
def itemBad : LineItem :=
  { description := "Widget", hsnCode := "8471", quantity := 2, rate := 100, total := 999 }

/-- A minimal line item, used with a large discount. -/
def itemOne : LineItem :=
  { description := "Widget", hsnCode := "8471", quantity := 1, rate := 1, total := 1 }

/-- A challenge store holding one fresh challenge for user u1. -/
def chSt : ChallengeStore := [("u1", { challenge := "ch", expiresAt := 100 })]

/-- A draft invoice with consistent stored totals. -/
def invW : Invoice :=
  { invoiceNumber := "INV-1"
    clientName := "Client AB"
    clientEmail := "c@d.e"
    clientAddress := "Addr"
    clientGSTNumber := none
    lineItems := [itemStd]
    subtotal := 200
    taxType := .IGST
    igst := some 36
    cgst := some 0
    sgst := some 0
    totalTax := some 36
    discount := some 0
    grandTotal := 236
    status := .draft
    signedBy := none
    signatureId := none
    pdfUrl := none }

/-- A pending (unverified) signature record for invW. -/
def sigW : SignatureRec := { userId := "u1", invoiceId := "i1", verified := false }

/-- A state in which every guard of the verify branch passes. -/
def stW : SignState :=
  { invoices := [("i1", invW)]
    signatures := [("s1", sigW)]
    counter := 3
    challenges := chSt
    logs := [] }

/-- A request matching stW, with a fresh counter and successful PDF save. -/
def rqW : VerifyRequest :=
  { userId := "u1"
    invoiceId := "i1"
    signatureId := "s1"
    now := 50
    cryptoOk := true
    candidateCounter := 5
    pdfOk := true }

/-- The same request with a failing PDF pipeline. -/
def rqWpdfFail : VerifyRequest := { rqW with pdfOk := false }

/-- stW with no signature record stored. -/
def stC10 : SignState := { stW with signatures := [] }

/-- Renderer settings, and a copy differing only in the company name. -/
def settingsR1 : CompanySettings :=
  { companyName := "AA Co"
    companyAddress := "Addr"
    companyEmail := "e@co"
    companyPhone := "111"
    companyGSTIN := "G"
    termsText := some "T" }

def settingsR2 : CompanySettings := { settingsR1 with companyName := "BB Co" }

/-! ## Helper lemmas -/

theorem alistGet_set_self {α : Type} (l : List (String × α)) (k : String) (v : α) :
    alistGet (alistSet l k v) k = some v := by
  simp [alistGet, alistSet]

theorem storeGet_delete_self (s : ChallengeStore) (k : String) :
    storeGet (storeDelete s k) k = none := by
  have hfind : List.find? (fun p => p.1 == k) (List.filter (fun p => p.1 != k) s) = none := by
    rw [List.find?_eq_none]
    intro x hx
    have h2 := (List.mem_filter.mp hx).2
    simp only [bne_iff_ne, ne_eq, decide_eq_true_eq] at h2
    simpa using h2
  simp [storeGet, storeDelete, hfind]

theorem replayCheckOk_iff (a b : ℕ) :
    replayCheckOk a b = true ↔ (a < b ∨ (a = 0 ∧ b = 0)) := by
  simp [replayCheckOk]

theorem verifyAuthentication_ok_spec (store : ChallengeStore) (uid : String)
    (now : ℤ) (ok : Bool) (sc cand : ℕ) (v : VerifiedAuthenticationResponse)
    (store2 : ChallengeStore)
    (h : verifyAuthentication store uid now ok sc cand = (.ok v, store2)) :
    v.newCounter = cand ∧ v.verified = (ok && replayCheckOk sc cand) ∧
    (v.verified = true → store2 = storeDelete store uid) ∧
    (v.verified = false → store2 = store) := by
  unfold verifyAuthentication at h
  split at h
  · simp at h
  · split at h
    · simp at h
    · dsimp only at h
      split at h <;>
      · simp only [Prod.mk.injEq, Except.ok.injEq] at h
        rcases h with ⟨h1, h2⟩
        subst h1
        simp_all

/-- Characterization of the successful verify branch: the guards that held and
the resulting run of the persistence steps, for every crash point k. -/
theorem verify_success_spec (st : SignState) (rq : VerifyRequest)
    (h : (verifyStep st rq).1 = .success) :
    ∃ inv, alistGet st.invoices rq.invoiceId = some inv ∧
      inv.status ≠ .signed ∧ inv.status ≠ .cancelled ∧
      rq.cryptoOk = true ∧
      replayCheckOk st.counter rq.candidateCounter = true ∧
      ∀ k, verifyStepWith k st rq =
        (.success,
         runSteps { st with challenges := storeDelete st.challenges rq.userId }
           ((signPersistSteps rq ⟨true, rq.candidateCounter⟩ inv).take k)) := by
  unfold verifyStep verifyStepWith at h
  split at h
  · simp at h
  · split at h
    · simp at h
    · split at h
      · simp at h
      · split at h
        · simp at h
        · split at h
          · simp at h
          · split at h
            · simp at h
            · split at h
              · simp at h
              · split at h
                · simp at h
                · split at h
                  · simp at h
                  · rename_i x1 inv hI hns hnc x2 sg hS hu hi hnv x3 v store2 hva hver
                    have hvt : v.verified = true := by
                      simpa using hver
                    obtain ⟨ha, hb, hc2, _⟩ :=
                      verifyAuthentication_ok_spec st.challenges rq.userId rq.now
                        rq.cryptoOk st.counter rq.candidateCounter v store2 hva
                    have hand : rq.cryptoOk = true ∧
                        replayCheckOk st.counter rq.candidateCounter = true := by
                      rw [hvt] at hb
                      exact (Bool.and_eq_true _ _).mp hb.symm
                    have hveq : v = ⟨true, rq.candidateCounter⟩ := by
                      cases v
                      simp_all
                    have hst : store2 = storeDelete st.challenges rq.userId := hc2 hvt
                    refine ⟨inv, hI, hns, hnc, hand.1, hand.2, ?_⟩
                    intro k
                    unfold verifyStepWith
                    rw [hI]
                    simp only [if_neg hns, if_neg hnc]
                    rw [hS]
                    simp only [if_neg hu, if_neg hi, if_neg hnv]
                    rw [hva]
                    simp only [if_neg hver]
                    rw [hveq, hst]

/-- Every non-success branch of the verify flow leaves the invoice and
signature collections and the credential counter untouched. -/
theorem verifyStepWith_frame (k : ℕ) (st : SignState) (rq : VerifyRequest) :
    (verifyStepWith k st rq).1 = .success ∨
    ((verifyStepWith k st rq).2.invoices = st.invoices ∧
     (verifyStepWith k st rq).2.signatures = st.signatures ∧
     (verifyStepWith k st rq).2.counter = st.counter) := by
  unfold verifyStepWith
  repeat' split
  all_goals simp

theorem verifyStepWith_fail_frame (k : ℕ) (st : SignState) (rq : VerifyRequest)
    (h : (verifyStepWith k st rq).1 ≠ .success) :
    (verifyStepWith k st rq).2.invoices = st.invoices ∧
    (verifyStepWith k st rq).2.signatures = st.signatures ∧
    (verifyStepWith k st rq).2.counter = st.counter :=
  (verifyStepWith_frame k st rq).resolve_left h

theorem verifyAuthentication_error_spec (store : ChallengeStore) (uid : String)
    (now : ℤ) (ok : Bool) (sc cand : ℕ) (e : String) (store2 : ChallengeStore)
    (h : verifyAuthentication store uid now ok sc cand = (.error e, store2)) :
    store2 = store := by
  unfold verifyAuthentication at h
  split at h
  · simp only [Prod.mk.injEq] at h
    exact h.2.symm
  · split at h
    · simp only [Prod.mk.injEq] at h
      exact h.2.symm
    · dsimp only at h
      split at h <;> simp at h

/-! ## Claim theorems -/

/-- C1 counterexample: the sign transition of the route is a read of the
status (Invoice.findById plus guard) followed by a separate write
(invoice.save), so in the interleaving where both concurrent requests read the
draft status before either writes, both verify-and-sign calls succeed — the
claimed exactly-one-success property fails on this schedule. -/
theorem c1_concurrent_two_successes_cex :
    successCount (raceRun raceInit [.read1, .read2, .write1, .write2]) = 2 ∧
    successCount (raceRun raceInit [.read1, .read2, .write1, .write2]) ≠ 1 := by
  decide

/-- C1 (amended): the transition is implemented as a read of the status
followed by a separate write, not as a compare-and-swap; when the two sign
calls on the same draft document are serialized (in either order), exactly one
succeeds and the other fails with AlreadySigned, but there exists an
overlapping schedule under which both succeed. -/
theorem c1_sign_transition_amended :
    (successCount (raceRun raceInit [.read1, .write1, .read2, .write2]) = 1 ∧
     (raceRun raceInit [.read1, .write1, .read2, .write2]).p1 = .succeeded ∧
     (raceRun raceInit [.read1, .write1, .read2, .write2]).p2 = .failedAlreadySigned) ∧
    (successCount (raceRun raceInit [.read2, .write2, .read1, .write1]) = 1 ∧
     (raceRun raceInit [.read2, .write2, .read1, .write1]).p1 = .failedAlreadySigned) ∧
    ∃ sched : List RaceAction, successCount (raceRun raceInit sched) = 2 := by
  refine ⟨by decide, by decide, ⟨[.read1, .read2, .write1, .write2], by decide⟩⟩

/-- C2 counterexample: after a failed verification attempt the challenge is
not removed from the store (the store is unchanged), and a second attempt
presenting the same challenge succeeds instead of failing with the
expired-or-missing error — the claim that a challenge is consumed on the
first attempt regardless of outcome fails. -/
theorem c2_challenge_not_consumed_on_failure_cex :
    (verifyAuthentication chSt "u1" 50 false 0 0).2 = chSt ∧
    (verifyAuthentication ((verifyAuthentication chSt "u1" 50 false 0 0).2)
        "u1" 50 true 0 0).1 = .ok { verified := true, newCounter := 0 } :=
  ⟨by decide, rfl⟩

/-- C2 (amended): the challenge entry is removed exactly on a successful
verification attempt: an errored (missing or expired) or failed attempt
leaves the store unchanged, and once a successful attempt has consumed the
challenge, any further attempt by that user fails with the expired-or-missing
error. -/
theorem c2_challenge_consume_amended (store : ChallengeStore) (uid : String)
    (now : ℤ) (ok : Bool) (sc cand : ℕ) :
    (∀ v, (verifyAuthentication store uid now ok sc cand).1 = .ok v →
        v.verified = true →
        (verifyAuthentication store uid now ok sc cand).2 = storeDelete store uid) ∧
    (∀ v, (verifyAuthentication store uid now ok sc cand).1 = .ok v →
        v.verified = false →
        (verifyAuthentication store uid now ok sc cand).2 = store) ∧
    (∀ e, (verifyAuthentication store uid now ok sc cand).1 = .error e →
        (verifyAuthentication store uid now ok sc cand).2 = store) ∧
    (∀ now2 ok2 sc2 cand2,
        (verifyAuthentication (storeDelete store uid) uid now2 ok2 sc2 cand2).1 =
          Except.error "Challenge expired or not found") := by
  have hpair := (Prod.mk.eta (p := verifyAuthentication store uid now ok sc cand)).symm
  refine ⟨?_, ?_, ?_, ?_⟩
  · intro v h1 h2
    rw [h1] at hpair
    obtain ⟨_, _, hdel, _⟩ :=
      verifyAuthentication_ok_spec store uid now ok sc cand v _ hpair
    exact hdel h2
  · intro v h1 h2
    rw [h1] at hpair
    obtain ⟨_, _, _, hkeep⟩ :=
      verifyAuthentication_ok_spec store uid now ok sc cand v _ hpair
    exact hkeep h2
  · intro e h1
    rw [h1] at hpair
    exact verifyAuthentication_error_spec store uid now ok sc cand e _ hpair
  · intro now2 ok2 sc2 cand2
    unfold verifyAuthentication
    rw [storeGet_delete_self]

/-- C2 amended witness at a concrete store: a successful attempt consumes the
challenge, and the next attempt errors. -/
theorem c2_challenge_consume_amended_witness :
    (verifyAuthentication chSt "u1" 50 true 0 1).2 = storeDelete chSt "u1" ∧
    (verifyAuthentication (storeDelete chSt "u1") "u1" 60 true 1 2).1 =
      Except.error "Challenge expired or not found" :=
  ⟨(c2_challenge_consume_amended chSt "u1" 50 true 0 1).1 ⟨true, 1⟩ rfl rfl,
   (c2_challenge_consume_amended chSt "u1" 50 true 0 1).2.2.2 60 true 1 2⟩

/-- C3: the stored credential counter is mutated only by an accepted
verification (every non-success outcome of the verify flow, including a
failed or expired-challenge verification, leaves it unchanged), and an
accepted verification commits the presented counter, which is strictly
greater than the stored counter unless both are zero. -/
theorem c3_counter_monotonic (st : SignState) (rq : VerifyRequest) :
    ((verifyStep st rq).1 ≠ .success → (verifyStep st rq).2.counter = st.counter) ∧
    ((verifyStep st rq).1 = .success →
      (verifyStep st rq).2.counter = rq.candidateCounter ∧
      (st.counter < rq.candidateCounter ∨
        (st.counter = 0 ∧ rq.candidateCounter = 0))) := by
  constructor
  · intro h
    exact (verifyStepWith_fail_frame 5 st rq h).2.2
  · intro h
    obtain ⟨inv, hI, hns, hnc, hok, hrc, hrun⟩ := verify_success_spec st rq h
    constructor
    · have h5 := hrun 5
      unfold verifyStep
      rw [h5]
      simp [runSteps, signPersistSteps]
    · exact (replayCheckOk_iff _ _).mp hrc

/-- C3 witness: a concrete accepted verification advances the counter from 3
to the presented 5. -/
theorem c3_counter_monotonic_witness :
    (verifyStep stW rqW).2.counter = rqW.candidateCounter ∧
    (stW.counter < rqW.candidateCounter ∨
      (stW.counter = 0 ∧ rqW.candidateCounter = 0)) :=
  (c3_counter_monotonic stW rqW).2 (by decide)

/-- C4 counterexample: at creation the stored subtotal is the sum of the
client-supplied line total fields, not of quantity times rate: a line item
with quantity 2, rate 100 and client-sent total 999 yields stored subtotal
999, not 200 — the claim that line totals are derived as quantity times rate
rather than taken from client input fails. -/
theorem c4_client_total_trusted_cex :
    (createInvoice "INV-9" "Client AB" "c@d.e" "Addr Street" none [itemBad]
        .IGST none).subtotal = 999 ∧
    itemBad.quantity * itemBad.rate = 200 ∧
    (createInvoice "INV-9" "Client AB" "c@d.e" "Addr Street" none [itemBad]
        .IGST none).subtotal ≠ itemBad.quantity * itemBad.rate := by
  refine ⟨?_, ?_, ?_⟩ <;> simp [createInvoice, computeTax, itemBad] <;> norm_num

/-- C4 (amended): creation computes subtotal, tax and grand total from the
client-supplied line total fields (not from quantity times rate); at sign
time the subtotal is re-summed from the stored line totals, the tax is
recomputed only when the stored totalTax is zero or missing, the grand total
is overwritten as subtotal plus totalTax minus discount, and the
recomputation never rejects the sign — signRecalc is a total function and no
TotalsMismatch error exists. -/
theorem c4_totals_amended (inv : Invoice) :
    (∀ n cn ce ca cg items t d,
       (createInvoice n cn ce ca cg items t d).subtotal =
         (items.map (fun it => it.total)).sum) ∧
    (signRecalc inv).subtotal = (inv.lineItems.map (fun it => it.total)).sum ∧
    (signRecalc inv).totalTax =
      some (if inv.totalTax.getD 0 = 0
            then (computeTax ((inv.lineItems.map (fun it => it.total)).sum)
                    inv.taxType).totalTax
            else inv.totalTax.getD 0) ∧
    (signRecalc inv).grandTotal =
      (signRecalc inv).subtotal + ((signRecalc inv).totalTax.getD 0) -
        ((signRecalc inv).discount.getD 0) := by
  refine ⟨fun n cn ce ca cg items t d => rfl, rfl, ?_, ?_⟩
  · simp only [signRecalc]
    split <;> simp
  · simp only [signRecalc]
    split <;> simp

/-- C5 counterexample: with one line item of total 1 and a flat discount of
100, the stored grand total is 1 + 0.18 - 100 = -98.82, a negative amount
stored as is — the claimed clamp to zero with a NegativeTotalClamped flag
does not happen. -/
theorem c5_negative_total_not_clamped_cex :
    (createInvoice "I-1" "Client AB" "c@d.e" "Addr Street" none [itemOne]
        .IGST (some 100)).grandTotal < 0 ∧
    (createInvoice "I-1" "Client AB" "c@d.e" "Addr Street" none [itemOne]
        .IGST (some 100)).grandTotal = -(4941/50) := by
  constructor <;> simp [createInvoice, computeTax, itemOne] <;> norm_num

/-- C5 (amended): for every combination of line items and discount the stored
grand total equals subtotal plus totalTax minus discount, with no clamping at
zero and no flag: a negative value is stored unchanged. -/
theorem c5_grand_total_amended (n cn ce ca : String) (cg : Option String)
    (items : List LineItem) (t : TaxType) (d : Option ℚ) :
    (createInvoice n cn ce ca cg items t d).grandTotal =
      (createInvoice n cn ce ca cg items t d).subtotal +
        ((createInvoice n cn ce ca cg items t d).totalTax.getD 0) -
        ((createInvoice n cn ce ca cg items t d).discount.getD 0) := by
  simp [createInvoice]

/-- C6: for every subtotal the single-rate computation (18 percent) and the
split-rate computation (9 percent plus 9 percent) yield the same total tax,
and the concrete scenario of one line item with quantity 2 and rate 100
yields subtotal 200, total tax 36 and grand total 236 under both modes.
Monetary arithmetic is embedded as exact rationals. -/
theorem c6_tax_mode_equivalence :
    (∀ s : ℚ, (computeTax s .IGST).totalTax = (computeTax s .CGST_SGST).totalTax) ∧
    ((createInvoice "INV-1" "Client AB" "c@d.e" "Addr Street" none [itemStd]
        .IGST none).subtotal = 200 ∧
     (createInvoice "INV-1" "Client AB" "c@d.e" "Addr Street" none [itemStd]
        .IGST none).totalTax = some 36 ∧
     (createInvoice "INV-1" "Client AB" "c@d.e" "Addr Street" none [itemStd]
        .IGST none).grandTotal = 236) ∧
    ((createInvoice "INV-1" "Client AB" "c@d.e" "Addr Street" none [itemStd]
        .CGST_SGST none).subtotal = 200 ∧
     (createInvoice "INV-1" "Client AB" "c@d.e" "Addr Street" none [itemStd]
        .CGST_SGST none).totalTax = some 36 ∧
     (createInvoice "INV-1" "Client AB" "c@d.e" "Addr Street" none [itemStd]
        .CGST_SGST none).grandTotal = 236) := by
  refine ⟨fun s => ?_, ⟨?_, ?_, ?_⟩, ⟨?_, ?_, ?_⟩⟩
  · simp only [computeTax]
    ring
  all_goals simp [createInvoice, computeTax, itemStd] <;> norm_num

/-- C7 counterexample: the signature record and the invoice are saved by two
separate writes; stopping the successful verify flow after the second write
(signature.save) leaves a reachable state in which the Signature is
verified = true while the document is still draft — the claimed atomicity
fails. -/
theorem c7_partial_commit_cex :
    (alistGet (verifyStepWith 2 stW rqW).2.signatures "s1").map
        (fun s => s.verified) = some true ∧
    (alistGet (verifyStepWith 2 stW rqW).2.invoices "i1").map
        (fun i => i.status) = some .draft := by
  decide

/-- C7 (amended): in a completed successful call both the Signature record
and the invoice status are updated, but not atomically: the signature is
persisted as verified before the invoice is persisted as signed, so a crash
between the two writes leaves a verified Signature with a draft document. -/
theorem c7_signature_before_invoice_amended (st : SignState) (rq : VerifyRequest)
    (h : (verifyStep st rq).1 = .success) :
    ((alistGet (verifyStep st rq).2.signatures rq.signatureId).map
        (fun s => s.verified) = some true ∧
     (alistGet (verifyStep st rq).2.invoices rq.invoiceId).map
        (fun i => i.status) = some .signed) ∧
    ((alistGet (verifyStepWith 2 st rq).2.signatures rq.signatureId).map
        (fun s => s.verified) = some true ∧
     (verifyStepWith 2 st rq).2.invoices = st.invoices) := by
  obtain ⟨inv, hI, hns, hnc, hok, hrc, hrun⟩ := verify_success_spec st rq h
  have h5 := hrun 5
  have h2 := hrun 2
  refine ⟨⟨?_, ?_⟩, ⟨?_, ?_⟩⟩
  · unfold verifyStep
    rw [h5]
    simp [runSteps, signPersistSteps, alistGet_set_self]
  · unfold verifyStep
    rw [h5]
    simp [runSteps, signPersistSteps, alistGet_set_self, signRecalc]
  · rw [h2]
    simp [runSteps, signPersistSteps, alistGet_set_self]
  · rw [h2]
    simp [runSteps, signPersistSteps]

/-- C7 amended witness at the concrete fixture state. -/
theorem c7_signature_before_invoice_amended_witness :
    ((alistGet (verifyStep stW rqW).2.signatures rqW.signatureId).map
        (fun s => s.verified) = some true ∧
     (alistGet (verifyStep stW rqW).2.invoices rqW.invoiceId).map
        (fun i => i.status) = some .signed) ∧
    ((alistGet (verifyStepWith 2 stW rqW).2.signatures rqW.signatureId).map
        (fun s => s.verified) = some true ∧
     (verifyStepWith 2 stW rqW).2.invoices = stW.invoices) :=
  c7_signature_before_invoice_amended stW rqW (by decide)

/-- C8: when verification and the replay check succeed but the PDF pipeline
fails, the invoice is still persisted as signed, its artifact pointer stays
as it was (absent for a draft), and the failure is recorded in the audit log
under the distinct PDF_GENERATION_FAILED action. -/
theorem c8_pdf_failure_nonfatal (st : SignState) (rq : VerifyRequest)
    (inv : Invoice) (hinv : alistGet st.invoices rq.invoiceId = some inv)
    (h : (verifyStep st rq).1 = .success) (hpdf : rq.pdfOk = false) :
    (alistGet (verifyStep st rq).2.invoices rq.invoiceId).map
        (fun i => i.status) = some .signed ∧
    (alistGet (verifyStep st rq).2.invoices rq.invoiceId).map
        (fun i => i.pdfUrl) = some inv.pdfUrl ∧
    "PDF_GENERATION_FAILED" ∈ (verifyStep st rq).2.logs := by
  obtain ⟨inv2, hI2, hns, hnc, hok, hrc, hrun⟩ := verify_success_spec st rq h
  rw [hinv] at hI2
  obtain rfl : inv2 = inv := (Option.some.inj hI2).symm
  have h5 := hrun 5
  unfold verifyStep
  rw [h5]
  refine ⟨?_, ?_, ?_⟩
  · simp [runSteps, signPersistSteps, alistGet_set_self, signRecalc]
  · simp [runSteps, signPersistSteps, alistGet_set_self, signRecalc, hpdf]
  · simp [runSteps, signPersistSteps, hpdf]

/-- C8 witness: the concrete fixture with a failing PDF pipeline still signs. -/
theorem c8_pdf_failure_nonfatal_witness :
    (alistGet (verifyStep stW rqWpdfFail).2.invoices rqWpdfFail.invoiceId).map
        (fun i => i.status) = some .signed ∧
    (alistGet (verifyStep stW rqWpdfFail).2.invoices rqWpdfFail.invoiceId).map
        (fun i => i.pdfUrl) = some invW.pdfUrl ∧
    "PDF_GENERATION_FAILED" ∈ (verifyStep stW rqWpdfFail).2.logs :=
  c8_pdf_failure_nonfatal stW rqWpdfFail invW rfl (by decide) rfl

/-- C9 counterexample: two renders from the same frozen document, the same
signer display name and the same signing timestamp produce different output
when the company settings — a fourth input read from the database at sign
time — differ, so the renderer is not a function of the three claimed inputs
alone. -/
theorem c9_renderer_hidden_settings_cex :
    generateInvoicePDFWithGST invW settingsR1 "Alice Signer" 1700000000
        (fun s => s.length) ≠
    generateInvoicePDFWithGST invW settingsR2 "Alice Signer" 1700000000
        (fun s => s.length) := by
  intro h
  exact absurd (congrArg (fun l => l.get? 2) h) (by decide)

/-- C9 (amended): the renderer is a deterministic function of the frozen
invoice, the company settings and the font metrics; the signer display name
and the signing timestamp are accepted but never drawn, so they do not
influence the output at all. -/
theorem c9_renderer_deterministic_amended (inv : Invoice) (s : CompanySettings)
    (b b2 : String) (t t2 : ℤ) (w : String → ℕ) :
    generateInvoicePDFWithGST inv s b t w = generateInvoicePDFWithGST inv s b2 t2 w :=
  rfl

/-- C10: in the verify step, a missing signature record, a record owned by a
different user, a record referencing a different invoice, and a record
already marked verified each produce their own distinct error, and in each
case the whole state — credential counter, signature records, invoices and
challenge store — is returned unchanged, before any cryptographic
verification is attempted. -/
theorem c10_verify_guards (st : SignState) (rq : VerifyRequest) (inv : Invoice)
    (hinv : alistGet st.invoices rq.invoiceId = some inv)
    (hns : inv.status ≠ .signed) (hnc : inv.status ≠ .cancelled) :
    (alistGet st.signatures rq.signatureId = none →
       verifyStep st rq = (.signatureNotFound, st)) ∧
    (∀ sg, alistGet st.signatures rq.signatureId = some sg →
       (sg.userId ≠ rq.userId → verifyStep st rq = (.signatureWrongUser, st)) ∧
       (sg.userId = rq.userId → sg.invoiceId ≠ rq.invoiceId →
          verifyStep st rq = (.signatureWrongInvoice, st)) ∧
       (sg.userId = rq.userId → sg.invoiceId = rq.invoiceId → sg.verified = true →
          verifyStep st rq = (.signatureAlreadyVerified, st))) := by
  constructor
  · intro hsg
    unfold verifyStep verifyStepWith
    simp only [hinv, if_neg hns, if_neg hnc, hsg]
  · intro sg hsg
    refine ⟨?_, ?_, ?_⟩
    · intro hu
      unfold verifyStep verifyStepWith
      simp only [hinv, if_neg hns, if_neg hnc, hsg]
      rw [if_pos hu]
    · intro hu hi
      unfold verifyStep verifyStepWith
      simp only [hinv, if_neg hns, if_neg hnc, hsg]
      rw [if_neg (by simp [hu]), if_pos hi]
    · intro hu hi hv
      unfold verifyStep verifyStepWith
      simp only [hinv, if_neg hns, if_neg hnc, hsg]
      rw [if_neg (by simp [hu]), if_neg (by simp [hi]), if_pos hv]

/-- C10 witness: with no signature record stored, the verify step returns the
signature-not-found error and the state unchanged. -/
theorem c10_verify_guards_witness :
    verifyStep stC10 rqW = (.signatureNotFound, stC10) :=
  (c10_verify_guards stC10 rqW invW rfl (by decide) (by decide)).1 rfl

end Invox
